import Mathlib

/-!
# Verification of the AgeOfTraders configuration accessor and connection manager

Shallow embedding of `src/services/Utils/getEnvVar.ts` (typed configuration
accessor) and `src/lib/services/Mongoose/connectToDb.ts` (cached, retrying
connection manager), together with theorems settling the specification claims.

JavaScript numbers are modelled as a sum of NaN, the two infinities and an
exact finite value (a rational); rounding plays no role in any claim, only
finiteness and NaN-ness do. The JavaScript event loop is modelled by taking
the synchronous prefix of each `async` function as one atomic step.
-/

set_option maxRecDepth 4096

/-! ## JavaScript numbers and `Number(string)` coercion -/

/-- A JavaScript number: NaN, ±Infinity, or an exact finite value. -/
inductive JSNum where
  | nan : JSNum
  | posInf : JSNum
  | negInf : JSNum
  | finite (q : ℚ) : JSNum
  deriving DecidableEq, Repr

namespace JSNum

/-- Unary minus on JavaScript numbers (used for a leading `-` sign). -/
def neg : JSNum → JSNum
  | nan => nan
  | posInf => negInf
  | negInf => posInf
  | finite q => finite (-q)

end JSNum

/-- The whitespace characters that `Number(string)` strips
(ECMAScript StrWhiteSpaceChar, restricted to the common ones). -/
def isJsWhitespace (c : Char) : Bool :=
  c = ' ' || c = '\t' || c = '\n' || c = '\r' || c = '\x0b' || c = '\x0c' || c = '\xa0'

/-- Trim JS whitespace from both ends of a character list. -/
def trimJsWs (cs : List Char) : List Char :=
  ((cs.dropWhile isJsWhitespace).reverse.dropWhile isJsWhitespace).reverse

/-- Value of one digit character in bases up to 16, if valid. -/
def digitVal (c : Char) : Option Nat :=
  if '0' ≤ c ∧ c ≤ '9' then some (c.toNat - '0'.toNat)
  else if 'a' ≤ c ∧ c ≤ 'f' then some (c.toNat - 'a'.toNat + 10)
  else if 'A' ≤ c ∧ c ≤ 'F' then some (c.toNat - 'A'.toNat + 10)
  else none

/-- Value of a nonempty digit string in the given base; `none` if any
character is not a digit of that base (or the string is empty). -/
def digitsToNat (base : Nat) (cs : List Char) : Option Nat :=
  match cs with
  | [] => none
  | _ =>
    cs.foldl
      (fun acc c =>
        match acc, digitVal c with
        | some a, some d => if d < base then some (a * base + d) else none
        | _, _ => none)
      (some 0)

/-- Digits of a possibly-empty digit block, read in base 10 (empty ↦ 0). -/
def decDigitsVal (cs : List Char) : Nat :=
  cs.foldl (fun a c => a * 10 + (c.toNat - '0'.toNat)) 0

/-- Parse an optional ExponentPart (`e`/`E`, optional sign, ≥1 digit).
Returns the exponent and the remaining characters, or `none` if an
exponent marker is present but malformed. -/
def parseExpTail (cs : List Char) : Option (Int × List Char) :=
  match cs with
  | 'e' :: rest => parseSignedExp rest
  | 'E' :: rest => parseSignedExp rest
  | _ => some (0, cs)
where
  parseSignedExp (cs : List Char) : Option (Int × List Char) :=
    match cs with
    | '+' :: rest => parseDigits rest false
    | '-' :: rest => parseDigits rest true
    | _ => parseDigits cs false
  parseDigits (cs : List Char) (negate : Bool) : Option (Int × List Char) :=
    let (ds, rest) := cs.span Char.isDigit
    if ds.isEmpty then none
    else some (if negate then -(decDigitsVal ds : Int) else (decDigitsVal ds : Int), rest)

/-- The rational `(intDigits.fracDigits) × 10^e`, built with `mkRat` so the
value is kernel-computable. -/
def decValue (ds fs : List Char) (e : Int) : ℚ :=
  let mantissa : Nat := decDigitsVal ds * 10 ^ fs.length + decDigitsVal fs
  if 0 ≤ e then mkRat (mantissa * 10 ^ e.toNat : Nat) (10 ^ fs.length)
  else mkRat (mantissa : Nat) (10 ^ fs.length * 10 ^ (-e).toNat)

/-- Parse an unsigned StrUnsignedDecimalLiteral without the `Infinity`
alternative: `Digits [. Digits] [Exp]` or `. Digits [Exp]`, requiring the
whole input to be consumed. -/
def parseDecLiteral (cs : List Char) : Option ℚ :=
  let (ds, r1) := cs.span Char.isDigit
  let (fs, r2) :=
    match r1 with
    | '.' :: rest => rest.span Char.isDigit
    | _ => ([], r1)
  if ds.isEmpty ∧ fs.isEmpty then none
  else
    match parseExpTail r2 with
    | none => none
    | some (e, r3) =>
      if r3.isEmpty then some (decValue ds fs e) else none

/-- Parse an unsigned decimal literal or the literal `Infinity`. -/
def parseUnsignedNumeric (cs : List Char) : Option JSNum :=
  if cs = "Infinity".toList then some .posInf
  else
    match parseDecLiteral cs with
    | some q => some (.finite q)
    | none => none

/-- Parse a radix-prefixed literal (`0x`, `0o`, `0b`, either case). -/
def parseRadixLiteral (cs : List Char) : Option Nat :=
  match cs with
  | '0' :: 'x' :: rest => digitsToNat 16 rest
  | '0' :: 'X' :: rest => digitsToNat 16 rest
  | '0' :: 'o' :: rest => digitsToNat 8 rest
  | '0' :: 'O' :: rest => digitsToNat 8 rest
  | '0' :: 'b' :: rest => digitsToNat 2 rest
  | '0' :: 'B' :: rest => digitsToNat 2 rest
  | _ => none

/-- The StrNumericLiteral grammar applied to trimmed input. -/
def strNumericValue (cs : List Char) : JSNum :=
  match cs with
  | [] => .finite 0
  | '+' :: rest =>
    match parseUnsignedNumeric rest with
    | some n => n
    | none => .nan
  | '-' :: rest =>
    match parseUnsignedNumeric rest with
    | some n => n.neg
    | none => .nan
  | _ =>
    match parseRadixLiteral cs with
    | some n => .finite (n : ℚ)
    | none =>
      match parseUnsignedNumeric cs with
      | some n => n
      | none => .nan

/-- ECMAScript `Number(s)` for a string `s` (the ToNumber coercion used by
`Number(value)` in `parseNumber`). -/
def jsStringToNumber (s : String) : JSNum :=
  strNumericValue (trimJsWs s.toList)

/-! ## `getEnvVar.ts`: values, options, errors -/

/-- JSON-compatible runtime values (the `JSONValue` type of `getEnvVar.ts`). -/
inductive JSValue where
  | str (s : String) : JSValue
  | num (n : JSNum) : JSValue
  | boolean (b : Bool) : JSValue
  | null : JSValue
  | arr (elems : List JSValue) : JSValue
  | obj (fields : List (String × JSValue)) : JSValue

/-- JavaScript `typeof` restricted to `JSValue` (note `typeof null` and
`typeof` of objects and arrays are all `"object"`). -/
def typeofJS : JSValue → String
  | .str _ => "string"
  | .num _ => "number"
  | .boolean _ => "boolean"
  | .null => "object"
  | .arr _ => "object"
  | .obj _ => "object"

/-- The `type` option of `getEnvVar` (`'string' | 'number' | 'boolean' | 'json'`). -/
inductive TypeTag where
  | string : TypeTag
  | number : TypeTag
  | boolean : TypeTag
  | json : TypeTag
  deriving DecidableEq, Repr

/-- The literal name of a type tag. -/
def typeTagName : TypeTag → String
  | .string => "string"
  | .number => "number"
  | .boolean => "boolean"
  | .json => "json"

/-- `typeToString` from `getEnvVar.ts`: maps the `type` option to the
JavaScript `typeof` string used for the default-value check. -/
def typeToString (t : TypeTag) : String :=
  if t = TypeTag.json then "object" else typeTagName t

/-- Which `throw` site of `getEnvVar.ts` produced an error. The spec's
taxonomy maps onto these sites: Missing ↦ `missingRequired`,
InvalidFormat ↦ `invalidNumber`/`invalidBoolean`/`invalidJSON`,
ConfigMismatch ↦ `defaultTypeMismatch`, ValidationFailed ↦ `validationFailed`. -/
inductive EnvErrorKind where
  | invalidNumber (raw : String) : EnvErrorKind
  | invalidBoolean (raw : String) : EnvErrorKind
  | invalidJSON (msg : String) : EnvErrorKind
  | defaultTypeMismatch (got expected : String) : EnvErrorKind
  | missingRequired : EnvErrorKind
  | validationFailed (msg : Option String) : EnvErrorKind
  deriving DecidableEq, Repr

/-- The `EnvVarError` class: the variable name baked into the message,
plus which throw site fired. The parse helpers construct it with an empty
name; `getEnvVar`'s catch block fills the name in. -/
structure EnvVarError where
  name : String
  kind : EnvErrorKind
  deriving DecidableEq, Repr

/-- The catch block of `getEnvVar`: ensure the variable name is included
in the error (parse helpers throw with an empty name placeholder). -/
def annotateName (n : String) (e : EnvVarError) : EnvVarError :=
  if e.name = "" then { e with name := n } else e

/-- Result type of a custom `validate` function: JS `boolean | string`. -/
inductive JsValidateResult where
  | bool (b : Bool) : JsValidateResult
  | strMsg (s : String) : JsValidateResult

/-- `GetEnvVarOptions` from `getEnvVar.ts`; absent JS fields are `none`. -/
structure GetEnvVarOptions where
  isRequired : Option Bool := none
  defaultValue : Option JSValue := none
  type : Option TypeTag := none
  validate : Option (JSValue → JsValidateResult) := none

/-- `parseNumber` from `getEnvVar.ts`: `Number(value)`, throwing iff the
result is NaN. -/
def parseNumber (value : String) : Except EnvVarError JSNum :=
  let parsed := jsStringToNumber value
  if parsed = JSNum.nan then .error ⟨"", .invalidNumber value⟩
  else .ok parsed

/-- ASCII lowercasing, the fragment of `toLowerCase()` relevant to the
fixed boolean vocabulary. -/
def jsCharToLower (c : Char) : Char :=
  if 'A' ≤ c ∧ c ≤ 'Z' then Char.ofNat (c.toNat + 32) else c

/-- `parseBoolean` from `getEnvVar.ts`: lowercase and trim, then match a
fixed vocabulary. -/
def parseBoolean (value : String) : Except EnvVarError Bool :=
  let normalized := trimJsWs (value.toList.map jsCharToLower)
  if normalized = "true".toList ∨ normalized = "1".toList ∨
      normalized = "yes".toList ∨ normalized = "y".toList then .ok true
  else if normalized = "false".toList ∨ normalized = "0".toList ∨
      normalized = "no".toList ∨ normalized = "n".toList then .ok false
  else .error ⟨"", .invalidBoolean value⟩

/-- The type-conversion `switch` of `getEnvVar`. `JSON.parse` is a runtime
primitive outside this repository, so it is passed in as `jp`. -/
def convertValue (jp : String → Except EnvVarError JSValue) :
    TypeTag → String → Except EnvVarError JSValue
  | .string, raw => .ok (.str raw)
  | .number, raw => (parseNumber raw).map .num
  | .boolean, raw => (parseBoolean raw).map .boolean
  | .json, raw => jp raw

/-- `getEnvVar` from `getEnvVar.ts`. `jp` models `JSON.parse`, `env` models
`process.env`. The `typeof window` server-side guard is outside the model
(the core is callable from any execution context). `process.env[name]` is
falsy exactly when the variable is unset or set to the empty string, so
both routes go through the same missing-value branch, mirroring
`if (!rawValue)` in the source. -/
def getEnvVar (jp : String → Except EnvVarError JSValue)
    (env : String → Option String) (name : String)
    (options : GetEnvVarOptions) : Except EnvVarError JSValue :=
  let isRequired := options.isRequired.getD true
  let type := options.type.getD TypeTag.string
  let missingCase : Except EnvVarError JSValue :=
    match options.defaultValue with
    | some d =>
      if typeofJS d ≠ typeToString type then
        .error ⟨name, .defaultTypeMismatch (typeofJS d) (typeTagName type)⟩
      else .ok d
    | none =>
      if ¬ isRequired then .ok (.str "")
      else .error ⟨name, .missingRequired⟩
  match env name with
  | none => missingCase
  | some raw =>
    if raw = "" then missingCase
    else
      match convertValue jp type raw with
      | .error e => .error (annotateName name e)
      | .ok value =>
        match options.validate with
        | none => .ok value
        | some v =>
          match v value with
          | .bool true => .ok value
          | .bool false => .error ⟨name, .validationFailed none⟩
          | .strMsg m => .error ⟨name, .validationFailed (some m)⟩

/-! ## `connectToDb.ts`: retry loop

`connectWithRetry` (lines 135–154 of `connectToDb.ts`) tries
`mongoose.connect` and, on failure, increments `attempt`, rejects once
`attempt >= maxRetries`, and otherwise sleeps 2000 ms and recurses. The
underlying client is modelled by `tryConnect`, giving the outcome of the
k-th `mongoose.connect` invocation; the model records every invocation
and every `waitForTimeout` duration. -/

/-- Result of running the retry loop: the settled value of the promise,
the number of `mongoose.connect` invocations, and the list of
`waitForTimeout` durations (in ms) in order. -/
structure RetryOutcome (E C : Type) where
  result : Except E C
  calls : Nat
  delays : List Nat

/-- `maxRetries` from `connectToDb.ts` line 131: 3 in production, 1 otherwise. -/
def maxRetries (isProduction : Bool) : Nat :=
  if isProduction then 3 else 1

/-- The recursive `connectWithRetry` closure, entered with the current
value of the `attempt` counter (initially 0). -/
def connectWithRetry {E C : Type} (tryConnect : Nat → Except E C)
    (maxRetries attempt : Nat) : RetryOutcome E C :=
  match tryConnect attempt with
  | .ok c => ⟨.ok c, 1, []⟩
  | .error e =>
    if h : attempt + 1 ≥ maxRetries then ⟨.error e, 1, []⟩
    else
      let rest := connectWithRetry tryConnect maxRetries (attempt + 1)
      ⟨rest.result, rest.calls + 1, 2000 :: rest.delays⟩
termination_by maxRetries - attempt
decreasing_by omega

/-! ## `connectToDb.ts`: the module-level cache under the event loop

JavaScript is single-threaded: the synchronous prefix of each `async`
call runs atomically, and suspension happens only at `await`. The
synchronous prefix of `connectToDb` (lines 95–160: the `cached.conn`
check, the `cached.promise` check, the three configuration reads, and
the creation of the promise — whose executor synchronously starts the
first `mongoose.connect` call) is one atomic step, `connectEnter`.
Resumption of a waiter after the promise settles, the `'disconnected'`
listener, and `disconnectFromDb` are the other atomic steps. -/

/-- The cache plus instrumentation counters: `conn`/`promise` are the two
fields of `global.mongoose`; `ops` counts in-flight operations created,
`calls` counts `mongoose.connect` invocations (re-invocations by the retry
loop are accounted by `connectWithRetry`, not here), `configReads` counts
`getEnvVar` reads performed inside `connectToDb`, `closes` counts
`conn.disconnect()` calls. -/
structure DbState where
  conn : Option Nat
  promise : Option Nat
  ops : Nat
  calls : Nat
  configReads : Nat
  closes : Nat
  deriving DecidableEq, Repr

/-- The state of the freshly initialized module: `{ conn: null, promise: null }`. -/
def initState : DbState := ⟨none, none, 0, 0, 0, 0⟩

/-- What the synchronous prefix of a `connectToDb()` call did: returned the
cached connection immediately, or left the caller awaiting in-flight
operation `p`. -/
inductive EnterResult where
  | hit (c : Nat) : EnterResult
  | joined (p : Nat) : EnterResult
  deriving DecidableEq, Repr

/-- The synchronous prefix of `connectToDb()` (lines 95–160): return the
cached connection if present; otherwise create the shared promise if
absent (reading the three timeout configuration values and starting the
first underlying connect call); in all cases the caller then awaits the
cached promise. Fresh in-flight operations are numbered by creation
order. -/
def connectEnter (s : DbState) : DbState × EnterResult :=
  match s.conn with
  | some c => (s, .hit c)
  | none =>
    match s.promise with
    | some p => (s, .joined p)
    | none =>
      ({ s with
          promise := some s.ops
          ops := s.ops + 1
          calls := s.calls + 1
          configReads := s.configReads + 3 }, .joined s.ops)

/-- How in-flight operation `k` eventually settles: the value
`connectWithRetry` resolved with, or the error it rejected with. -/
inductive Fate where
  | success (h : Nat) : Fate
  | failure (e : String) : Fate
  deriving DecidableEq, Repr

/-- The atomic steps of the module. -/
inductive DbEvent where
  | enter : DbEvent
  | settleOk : DbEvent
  | settleErr : DbEvent
  | discListener : DbEvent
  | disconnectCall : DbEvent
  deriving DecidableEq, Repr

/-- One atomic step. `enter` is `connectEnter`. `settleOk` resumes a waiter
of a successfully resolved promise: `cached.conn = await cached.promise`
(line 163 — the promise is left in place). `settleErr` resumes a waiter of
a rejected promise: `cached.promise = null` then rethrow (lines 165–168).
`discListener` is the `'disconnected'` listener (lines 138–142): clears
both fields. `disconnectCall` is `disconnectFromDb` (lines 179–186):
closes and clears both fields when a connection is cached, else no-op. -/
def step (fate : Nat → Fate) (s : DbState) : DbEvent → DbState
  | .enter => (connectEnter s).1
  | .settleOk =>
    match s.promise with
    | some k =>
      match fate k with
      | .success h => { s with conn := some h }
      | .failure _ => s
    | none => s
  | .settleErr =>
    match s.promise with
    | some k =>
      match fate k with
      | .failure _ => { s with promise := none }
      | .success _ => s
    | none => s
  | .discListener => { s with conn := none, promise := none }
  | .disconnectCall =>
    match s.conn with
    | some _ => { s with conn := none, promise := none, closes := s.closes + 1 }
    | none => s

/-- Run a sequence of atomic steps from the fresh module state. -/
def run (fate : Nat → Fate) (evs : List DbEvent) : DbState :=
  evs.foldl (step fate) initState

/-- The value a `connectToDb()` caller ultimately gets, given what its
synchronous prefix did: a cache hit returns the cached handle; a caller
awaiting operation `k` receives that operation's resolution or rejection. -/
def callerOutcome (fate : Nat → Fate) : EnterResult → Except String Nat
  | .hit c => .ok c
  | .joined k =>
    match fate k with
    | .success h => .ok h
    | .failure e => .error e

/-- `n` back-to-back `connectToDb()` synchronous prefixes (n concurrent
callers arriving before any settling step), with each caller's result. -/
def enterSeq : Nat → DbState → DbState × List EnterResult
  | 0, s => (s, [])
  | n + 1, s =>
    let (s1, r) := connectEnter s
    let (s2, rs) := enterSeq n s1
    (s2, r :: rs)

/-! ## `connectToDb.ts`: connection options (lines 100–129) -/

/-- The `MongoDBConnectionOptions` record built by `connectToDb`. The six
production-only spread fields are `Option`s: `none` means the key is
absent from the object. -/
structure MongoDBConnectionOptions where
  dbName : String
  bufferCommands : Bool
  maxPoolSize : Nat
  socketTimeoutMS : JSNum
  serverSelectionTimeoutMS : JSNum
  connectTimeoutMS : JSNum
  family : Nat
  retryWrites : Option Bool
  retryReads : Option Bool
  w : Option String
  readPreference : Option String
  ssl : Option Bool
  authSource : Option String
  tlsAllowInvalidCertificates : Option Bool
  deriving DecidableEq, Repr

/-- The TypeScript call sites assert the `getEnvVar` results are numbers
(generic instantiation `T = number`); extract the numeric payload. -/
def asNum : JSValue → JSNum
  | .num n => n
  | _ => .nan

/-- `isProduction` from `connectToDb.ts` lines 46–52:
`getEnvVar('NODE_ENV', { defaultValue: 'development' }) === 'production'`. -/
def isProductionFor (jp : String → Except EnvVarError JSValue)
    (env : String → Option String) : Bool :=
  match getEnvVar jp env "NODE_ENV" { defaultValue := some (.str "development") } with
  | .ok (.str s) => s = "production"
  | _ => false

/-- Lines 100–129 of `connectToDb.ts`: read the three timeout settings
through `getEnvVar` (with their literal defaults) and build the options
object, spreading the production-only reliability flags. -/
def mongoConnectOptions (jp : String → Except EnvVarError JSValue)
    (env : String → Option String) (isProduction : Bool) (dbName : String) :
    Except EnvVarError MongoDBConnectionOptions :=
  match getEnvVar jp env "MONGODB_SOCKET_TIMEOUT_MS"
    { type := some .number
      defaultValue := some (.num (.finite (if isProduction then 45000 else 30000))) } with
  | .error e => .error e
  | .ok socketTimeoutMS =>
  match getEnvVar jp env "MONGODB_SERVER_SELECTION_TIMEOUT_MS"
    { type := some .number
      defaultValue := some (.num (.finite (if isProduction then 10000 else 5000))) } with
  | .error e => .error e
  | .ok serverSelectionTimeoutMS =>
  match getEnvVar jp env "MONGODB_CONNECT_TIMEOUT_MS"
    { type := some .number, defaultValue := some (.num (.finite 30000)) } with
  | .error e => .error e
  | .ok connectTimeoutMS =>
  .ok
    { dbName := dbName
      bufferCommands := false
      maxPoolSize := if isProduction then 20 else 10
      socketTimeoutMS := asNum socketTimeoutMS
      serverSelectionTimeoutMS := asNum serverSelectionTimeoutMS
      connectTimeoutMS := asNum connectTimeoutMS
      family := 4
      retryWrites := if isProduction then some true else none
      retryReads := if isProduction then some true else none
      w := if isProduction then some "majority" else none
      readPreference := if isProduction then some "secondaryPreferred" else none
      ssl := if isProduction then some true else none
      authSource := if isProduction then some "admin" else none
      tlsAllowInvalidCertificates := if isProduction then some false else none }

/-- An environment with no variables set. -/
def emptyEnv : String → Option String := fun _ => none

/-- A trivial stand-in for `JSON.parse`, used where the `json` branch is
unreachable. -/
def jsonParseNull : String → Except EnvVarError JSValue := fun _ => .ok .null

/-- The options `connectToDb` builds when none of the timeout variables is
set: each tier's defaults. -/
def tierDefaultOptions (isProduction : Bool) : Except EnvVarError MongoDBConnectionOptions :=
  mongoConnectOptions jsonParseNull emptyEnv isProduction "ageoftraders"

/-! ## Claim statements as propositions, and concrete scenario data -/

/-- `s` represents a finite number under JavaScript string-to-number
coercion. -/
def representsFiniteNumber (s : String) : Prop :=
  ∃ q : ℚ, jsStringToNumber s = JSNum.finite q

/-- Claim C5 as stated: `parseNumber` returns the represented finite
number on finite numeric strings, and fails with the invalid-number error
on every string that does not represent a finite number. -/
def parseNumberSpecClaim : Prop :=
  ∀ s : String,
    (∀ q : ℚ, jsStringToNumber s = JSNum.finite q → parseNumber s = .ok (JSNum.finite q)) ∧
    (¬ representsFiniteNumber s → ∃ raw, parseNumber s = .error ⟨"", .invalidNumber raw⟩)

/-- Claim C4 as stated: whenever a default of mismatched runtime type is
supplied, `getEnvVar` fails — even when the variable is set. -/
def defaultMismatchClaim : Prop :=
  ∀ (jp : String → Except EnvVarError JSValue) (env : String → Option String)
    (name : String) (opts : GetEnvVarOptions) (d : JSValue),
    opts.defaultValue = some d →
    typeofJS d ≠ typeToString (opts.type.getD TypeTag.string) →
    ∃ e : EnvVarError, getEnvVar jp env name opts = .error e

/-- Claim C9 as stated. Its last conjunct demands an error (rather than a
wrong-typed zero value) for non-string types that are absent, not
required, and defaulted. -/
def missingPolicyClaim : Prop :=
  (∀ (jp : String → Except EnvVarError JSValue) (env : String → Option String)
      (name : String) (opts : GetEnvVarOptions),
    env name = none → opts.defaultValue = none → opts.isRequired.getD true = true →
    getEnvVar jp env name opts = .error ⟨name, .missingRequired⟩) ∧
  (∀ (jp : String → Except EnvVarError JSValue) (env : String → Option String)
      (name : String) (opts : GetEnvVarOptions),
    env name = none → opts.defaultValue = none → opts.isRequired = some false →
    opts.type.getD TypeTag.string = TypeTag.string →
    getEnvVar jp env name opts = .ok (.str "")) ∧
  (∀ (jp : String → Except EnvVarError JSValue) (env : String → Option String)
      (name : String) (opts : GetEnvVarOptions),
    env name = none → opts.defaultValue = none → opts.isRequired = some false →
    opts.type.getD TypeTag.string ≠ TypeTag.string →
    ∃ e : EnvVarError, getEnvVar jp env name opts = .error e)

/-- The spec's §4.2 tier table, with the connect-timeout default as the
code actually has it (the constant 30000 for both tiers). Used to state
the amended C6. -/
def specTierOptions (isProduction : Bool) : MongoDBConnectionOptions where
  dbName := "ageoftraders"
  bufferCommands := false
  maxPoolSize := if isProduction then 20 else 10
  socketTimeoutMS := .finite (if isProduction then 45000 else 30000)
  serverSelectionTimeoutMS := .finite (if isProduction then 10000 else 5000)
  connectTimeoutMS := .finite 30000
  family := 4
  retryWrites := if isProduction then some true else none
  retryReads := if isProduction then some true else none
  w := if isProduction then some "majority" else none
  readPreference := if isProduction then some "secondaryPreferred" else none
  ssl := if isProduction then some true else none
  authSource := if isProduction then some "admin" else none
  tlsAllowInvalidCertificates := if isProduction then some false else none

/-- The tier-policy facts C6 states for one tier's options, apart from the
connect timeout: pool size, socket and server-selection defaults, and the
six reliability flags present exactly in production. -/
def tierPolicyCommon (isProduction : Bool) (o : MongoDBConnectionOptions) : Prop :=
  o.maxPoolSize = (if isProduction then 20 else 10) ∧
  o.socketTimeoutMS = .finite (if isProduction then 45000 else 30000) ∧
  o.serverSelectionTimeoutMS = .finite (if isProduction then 10000 else 5000) ∧
  ((o.retryWrites.isSome ∧ o.retryReads.isSome ∧ o.w.isSome ∧ o.readPreference.isSome ∧
      o.ssl.isSome ∧ o.authSource.isSome) ↔ isProduction = true)

/-- Claim C6 as stated: both tiers' default options satisfy the common
policy AND the connect-timeout default is tier-dependent (differs between
the tiers). -/
def tierPolicyClaim : Prop :=
  ∃ oP oD : MongoDBConnectionOptions,
    tierDefaultOptions true = .ok oP ∧ tierDefaultOptions false = .ok oD ∧
    tierPolicyCommon true oP ∧ tierPolicyCommon false oD ∧
    oP.connectTimeoutMS ≠ oD.connectTimeoutMS

/-- Claim C2's stated invariant: at most one of the two cache fields is
populated. -/
def cacheAtMostOne (s : DbState) : Prop :=
  s.conn = none ∨ s.promise = none

/-- The invariant that actually holds: a cached connection implies the
(successfully resolved) promise is still cached alongside it. -/
def cacheConnImpliesPromise (fate : Nat → Fate) (s : DbState) : Prop :=
  ∀ h : Nat, s.conn = some h → ∃ k, s.promise = some k ∧ fate k = .success h

/-- A fate assignment where every in-flight operation resolves to handle 7. -/
def fateConst7 : Nat → Fate := fun _ => .success 7

/-- A fate assignment where operation `k` resolves to the distinct handle
`10 + k`. -/
def fateSeqHandles : Nat → Fate := fun k => .success (10 + k)

/-- A fate assignment where every in-flight operation rejects. -/
def fateAllFail : Nat → Fate := fun _ => .failure "boom"

/-- The cache state after the first `connectToDb()` prefix from a fresh
module: no connection, operation 0 in flight, one underlying call, three
configuration reads. -/
def waitingState : DbState := ⟨none, some 0, 1, 1, 3, 0⟩

/-- An underlying client that fails the first two connect calls and
succeeds on the third with handle 42. -/
def tcRetryW : Nat → Except String Nat :=
  fun k => if k < 2 then .error "no primary" else .ok 42

/-! ## Theorems: configuration accessor claims -/

/-- Sanity evaluations of the JavaScript numeric-coercion model on
representative inputs (finite decimals, signs, exponents, radix prefixes,
whitespace, the `Infinity` literal, the empty string, and garbage). -/
theorem jsStringToNumber_eval :
    jsStringToNumber "Infinity" = JSNum.posInf ∧
    jsStringToNumber "42" = JSNum.finite 42 ∧
    jsStringToNumber "12.5" = JSNum.finite (mkRat 25 2) ∧
    jsStringToNumber "abc" = JSNum.nan ∧
    jsStringToNumber "" = JSNum.finite 0 ∧
    jsStringToNumber "0x10" = JSNum.finite 16 ∧
    jsStringToNumber " -3e2 " = JSNum.finite (-300) ∧
    jsStringToNumber "1e" = JSNum.nan := by
  refine ⟨?_, ?_, ?_, ?_, ?_, ?_, ?_, ?_⟩ <;> decide

/-- Sanity evaluations of the two parse helpers and the accessor on a set
variable. -/
theorem parseHelpers_eval :
    parseNumber "Infinity" = .ok JSNum.posInf ∧
    parseBoolean " YES " = .ok true ∧
    getEnvVar jsonParseNull (fun _ => some "8080") "PORT"
      { type := some .number } = .ok (.num (.finite 8080)) :=
  ⟨rfl, rfl, rfl⟩

/-- C5, counterexample: `"Infinity"` does not represent a finite number,
yet `parseNumber` succeeds on it (returning the infinite value), so the
claim as stated is false. -/
theorem parseNumber_claim_cex : ¬ parseNumberSpecClaim := by
  intro hcl
  have hni : ¬ representsFiniteNumber "Infinity" := by
    rintro ⟨q, hq⟩
    rw [show jsStringToNumber "Infinity" = JSNum.posInf from by decide] at hq
    simp at hq
  obtain ⟨raw, hraw⟩ := (hcl "Infinity").2 hni
  rw [show parseNumber "Infinity" = Except.ok JSNum.posInf from rfl] at hraw
  simp at hraw

/-- C5, amended: `parseNumber` fails (with the invalid-number error)
exactly on strings whose JavaScript numeric coercion is NaN, and otherwise
returns the coerced value — which is the represented finite number on
finite numeric strings, but is a non-NaN infinite value on strings such as
`"Infinity"`. -/
theorem parseNumber_amended (s : String) :
    (jsStringToNumber s = JSNum.nan → parseNumber s = .error ⟨"", .invalidNumber s⟩) ∧
    (jsStringToNumber s ≠ JSNum.nan → parseNumber s = .ok (jsStringToNumber s)) := by
  constructor <;> intro h <;> simp [parseNumber, h]

/-- C5, witness: the amended theorem applied at `"42"`. -/
theorem parseNumber_amended_witness :
    jsStringToNumber "42" ≠ JSNum.nan ∧ parseNumber "42" = .ok (jsStringToNumber "42") :=
  ⟨by decide, (parseNumber_amended "42").2 (by decide)⟩

/-- C4, counterexample: with `PORT=8080` set and a mismatched default
`"oops"` declared for expected type `number`, `getEnvVar` succeeds with
8080 instead of failing — the default-type check does not run when the
variable is set, so the claim as stated is false. -/
theorem getEnvVar_default_check_cex : ¬ defaultMismatchClaim := by
  intro hcl
  obtain ⟨e, he⟩ := hcl jsonParseNull (fun n => if n = "PORT" then some "8080" else none)
    "PORT" { type := some .number, defaultValue := some (.str "oops") } (.str "oops")
    rfl (by decide)
  rw [show getEnvVar jsonParseNull (fun n => if n = "PORT" then some "8080" else none)
      "PORT" { type := some .number, defaultValue := some (.str "oops") } =
      Except.ok (.num (.finite 8080)) from rfl] at he
  simp at he

/-- C4, amended: the default-type check runs exactly when the raw value
is falsy (variable unset or set to the empty string), i.e. whenever the
default would be returned; in that case a mismatched default fails with
the ConfigMismatch error. -/
theorem getEnvVar_default_check_amended (jp : String → Except EnvVarError JSValue)
    (env : String → Option String) (name : String) (opts : GetEnvVarOptions) (d : JSValue)
    (hraw : env name = none ∨ env name = some "")
    (hd : opts.defaultValue = some d)
    (hmis : typeofJS d ≠ typeToString (opts.type.getD TypeTag.string)) :
    getEnvVar jp env name opts =
      .error ⟨name, .defaultTypeMismatch (typeofJS d) (typeTagName (opts.type.getD TypeTag.string))⟩ := by
  rcases hraw with h | h <;> simp [getEnvVar, h, hd, hmis]

/-- C4, witness: the amended theorem applied to an unset variable with a
string default declared as type `number`. -/
theorem getEnvVar_default_check_amended_witness :
    getEnvVar jsonParseNull emptyEnv "TIMEOUT"
      { type := some .number, defaultValue := some (.str "oops") } =
      .error ⟨"TIMEOUT", .defaultTypeMismatch "string" "number"⟩ :=
  getEnvVar_default_check_amended jsonParseNull emptyEnv "TIMEOUT"
    { type := some .number, defaultValue := some (.str "oops") } (.str "oops")
    (Or.inl rfl) rfl (by decide)

/-- C9, counterexample: for type `number`, absent, not required, no
default, `getEnvVar` silently returns the wrong-typed empty string
instead of raising an error, so the claim as stated is false. -/
theorem getEnvVar_missing_policy_cex : ¬ missingPolicyClaim := by
  intro hcl
  obtain ⟨e, he⟩ := hcl.2.2 jsonParseNull emptyEnv "RETRIES"
    { isRequired := some false, type := some .number } rfl rfl rfl (by decide)
  rw [show getEnvVar jsonParseNull emptyEnv "RETRIES"
      { isRequired := some false, type := some .number } = Except.ok (.str "") from rfl] at he
  simp at he

/-- C9, amended: with the variable's raw value falsy and no default, a
required variable fails with the Missing error naming the variable, and a
non-required one returns the empty string for EVERY declared type — for
non-string types this is a silently wrong-typed zero value, not an
error. -/
theorem getEnvVar_missing_amended (jp : String → Except EnvVarError JSValue)
    (env : String → Option String) (name : String) (opts : GetEnvVarOptions)
    (hraw : env name = none ∨ env name = some "")
    (hd : opts.defaultValue = none) :
    (opts.isRequired.getD true = true →
      getEnvVar jp env name opts = .error ⟨name, .missingRequired⟩) ∧
    (opts.isRequired = some false →
      getEnvVar jp env name opts = .ok (.str "")) := by
  constructor <;> intro hreq <;> rcases hraw with h | h <;>
    simp [getEnvVar, h, hd, hreq]

/-- C9, witness: the amended theorem applied to a required unset variable
and to a non-required unset variable of type `number`. -/
theorem getEnvVar_missing_amended_witness :
    getEnvVar jsonParseNull emptyEnv "MONGODB_URI" {} = .error ⟨"MONGODB_URI", .missingRequired⟩ ∧
    getEnvVar jsonParseNull emptyEnv "RETRIES" { isRequired := some false, type := some .number } =
      .ok (.str "") :=
  ⟨(getEnvVar_missing_amended jsonParseNull emptyEnv "MONGODB_URI" {} (Or.inl rfl) rfl).1 rfl,
   (getEnvVar_missing_amended jsonParseNull emptyEnv "RETRIES"
      { isRequired := some false, type := some .number } (Or.inl rfl) rfl).2 rfl⟩

/-- C10: a variable set to the empty string behaves exactly as if it were
absent: the result coincides with the result under an environment where
the variable is unset, is independent of the custom validator (the raw
value is never coerced or validated), and follows the missing-value
policy: the (type-checked) default when one is supplied, the empty string
when not required, the Missing error when required with no default. -/
theorem getEnvVar_empty_is_absent (jp : String → Except EnvVarError JSValue)
    (env : String → Option String) (name : String) (opts : GetEnvVarOptions)
    (h : env name = some "") :
    getEnvVar jp env name opts = getEnvVar jp emptyEnv name opts ∧
    (∀ v, getEnvVar jp env name { opts with validate := v } = getEnvVar jp env name opts) ∧
    (∀ d, opts.defaultValue = some d →
      getEnvVar jp env name opts =
        (if typeofJS d ≠ typeToString (opts.type.getD TypeTag.string) then
          .error ⟨name, .defaultTypeMismatch (typeofJS d) (typeTagName (opts.type.getD TypeTag.string))⟩
        else .ok d)) ∧
    (opts.defaultValue = none → opts.isRequired = some false →
      getEnvVar jp env name opts = .ok (.str "")) ∧
    (opts.defaultValue = none → opts.isRequired.getD true = true →
      getEnvVar jp env name opts = .error ⟨name, .missingRequired⟩) := by
  refine ⟨?_, ?_, ?_, ?_, ?_⟩
  · simp [getEnvVar, h, emptyEnv]
  · intro v; simp [getEnvVar, h]
  · intro d hd; simp [getEnvVar, h, hd]
  · intro hd hreq; simp [getEnvVar, h, hd, hreq]
  · intro hd hreq; simp [getEnvVar, h, hd, hreq]

/-- C10, witness: the theorem applied to `NODE_ENV=""` with the default
`'development'`, yielding the default. -/
theorem getEnvVar_empty_is_absent_witness :
    getEnvVar jsonParseNull (fun n => if n = "NODE_ENV" then some "" else none) "NODE_ENV"
      { defaultValue := some (.str "development") } =
      getEnvVar jsonParseNull emptyEnv "NODE_ENV" { defaultValue := some (.str "development") } :=
  (getEnvVar_empty_is_absent jsonParseNull (fun n => if n = "NODE_ENV" then some "" else none)
    "NODE_ENV" { defaultValue := some (.str "development") } rfl).1

/-! ## Theorems: connection manager claims -/

/-- The first `connectToDb()` prefix from a fresh module creates in-flight
operation 0 and starts the one underlying call. -/
theorem connectEnter_initState : connectEnter initState = (waitingState, .joined 0) := rfl

/-- A `connectToDb()` prefix while operation 0 is in flight changes
nothing and joins operation 0. -/
theorem connectEnter_waitingState : connectEnter waitingState = (waitingState, .joined 0) := rfl

/-- Any number of further `connectToDb()` prefixes during the connecting
window leave the state fixed and all join operation 0. -/
theorem enterSeq_waitingState (m : Nat) :
    enterSeq m waitingState = (waitingState, List.replicate m (.joined 0)) := by
  induction m with
  | zero => rfl
  | succ k ih => simp [enterSeq, connectEnter_waitingState, ih, List.replicate]

/-- `n ≥ 1` back-to-back `connectToDb()` prefixes from a fresh module end
in the waiting state with every caller joined to operation 0. -/
theorem enterSeq_initState (n : Nat) (hn : 1 ≤ n) :
    enterSeq n initState = (waitingState, List.replicate n (.joined 0)) := by
  obtain ⟨k, rfl⟩ : ∃ k, n = k + 1 := ⟨n - 1, by omega⟩
  simp [enterSeq, connectEnter_initState, enterSeq_waitingState, List.replicate]

/-- C1: N concurrent `Connect()` calls issued before any attempt completes
are coalesced: exactly one in-flight operation is created, the underlying
client's connect is invoked exactly once, and every caller awaits the same
operation 0. -/
theorem connect_calls_coalesce (n : Nat) (hn : 1 ≤ n) :
    (enterSeq n initState).1.calls = 1 ∧ (enterSeq n initState).1.ops = 1 ∧
    (enterSeq n initState).2 = List.replicate n (.joined 0) := by
  rw [enterSeq_initState n hn]
  exact ⟨rfl, rfl, rfl⟩

/-- C1, witness: five concurrent callers, one underlying attempt. -/
theorem connect_calls_coalesce_witness :
    (enterSeq 5 initState).1.calls = 1 ∧ (enterSeq 5 initState).1.ops = 1 ∧
    (enterSeq 5 initState).2 = List.replicate 5 (.joined 0) :=
  connect_calls_coalesce 5 (by decide)

/-- C2, counterexample: after a successful connect (`enter` then a
successful settling), BOTH cache fields are populated — line 163 caches
the connection but never clears the resolved promise — so the stated
"at most one of `conn`/`promise` is populated" invariant is false. -/
theorem cache_at_most_one_cex :
    ¬ cacheAtMostOne (run fateConst7 [DbEvent.enter, DbEvent.settleOk]) := by
  unfold cacheAtMostOne
  decide

/-- One atomic step preserves the corrected cache invariant. -/
theorem step_preserves_connImpliesPromise (fate : Nat → Fate) (s : DbState) (e : DbEvent)
    (h : cacheConnImpliesPromise fate s) :
    cacheConnImpliesPromise fate (step fate s e) := by
  obtain ⟨conn, promise, ops, calls, reads, closes⟩ := s
  cases e with
  | enter =>
    cases conn with
    | some c => exact h
    | none =>
      cases promise with
      | some p => exact h
      | none =>
        intro x hx
        simp [step, connectEnter] at hx
  | settleOk =>
    cases promise with
    | none => exact h
    | some k =>
      cases hf : fate k with
      | success hh =>
        intro x hx
        simp [step, hf] at hx
        exact ⟨k, by simp [step, hf], by rw [hf, hx]⟩
      | failure err => simpa [step, hf] using h
  | settleErr =>
    cases promise with
    | none => exact h
    | some k =>
      cases hf : fate k with
      | success hh => simpa [step, hf] using h
      | failure err =>
        intro x hx
        simp [step, hf] at hx
        obtain ⟨k', hk', hf'⟩ := h x hx
        simp at hk'
        rw [← hk', hf] at hf'
        cases hf'
  | discListener =>
    intro x hx
    simp [step] at hx
  | disconnectCall =>
    cases conn with
    | some c =>
      intro x hx
      simp [step] at hx
    | none => exact h

/-- C2, amended: the stated invariant fails (see the counterexample), and
what holds instead is: (i) in every reachable state, a cached connection
implies the promise that successfully resolved to it is still cached
alongside it (so in the Connected state BOTH fields are populated); and
(ii) a waiter resuming from a rejected promise clears the pending
operation (leaving the connection field as it was) before the error is
rethrown, so the next call observes Disconnected and starts fresh. -/
theorem cache_invariant_amended (fate : Nat → Fate) (tr : List DbEvent) :
    cacheConnImpliesPromise fate (run fate tr) ∧
    (∀ (s : DbState) (k : Nat) (e : String), s.promise = some k → fate k = .failure e →
      (step fate s DbEvent.settleErr).promise = none ∧
      (step fate s DbEvent.settleErr).conn = s.conn) := by
  constructor
  · have hinit : cacheConnImpliesPromise fate initState := by
      intro x hx
      simp [initState] at hx
    have hgen : ∀ (l : List DbEvent) (s : DbState), cacheConnImpliesPromise fate s →
        cacheConnImpliesPromise fate (l.foldl (step fate) s) := by
      intro l
      induction l with
      | nil => intro s hs; exact hs
      | cons ev rest ih => intro s hs; exact ih _ (step_preserves_connImpliesPromise fate s ev hs)
    exact hgen tr initState hinit
  · intro s k e hk he
    obtain ⟨conn, promise, ops, calls, reads, closes⟩ := s
    simp at hk
    subst hk
    simp [step, he]

/-- C2, witness: the amended invariant applied after a successful connect:
the cached handle 7 comes with a cached promise that resolved to it. -/
theorem cache_invariant_amended_witness :
    ∃ k, (run fateConst7 [DbEvent.enter, DbEvent.settleOk]).promise = some k ∧
      fateConst7 k = .success 7 :=
  (cache_invariant_amended fateConst7 [DbEvent.enter, DbEvent.settleOk]).1 7 (by decide)

/-- C7: once a connection is cached, a further `Connect()` returns the
cached handle with the state unchanged — no new in-flight operation, no
new underlying call, no new configuration reads — and the underlying
client was invoked exactly once across the successful call and the cache
hits. -/
theorem connected_cache_hit (fate : Nat → Fate) (h : Nat) (hf : fate 0 = .success h) :
    connectEnter (run fate [DbEvent.enter, DbEvent.settleOk]) =
      (run fate [DbEvent.enter, DbEvent.settleOk], .hit h) ∧
    callerOutcome fate (connectEnter (run fate [DbEvent.enter, DbEvent.settleOk])).2 = .ok h ∧
    (run fate [DbEvent.enter, DbEvent.settleOk]).calls = 1 ∧
    (run fate [DbEvent.enter, DbEvent.settleOk]).ops = 1 ∧
    (run fate [DbEvent.enter, DbEvent.settleOk]).configReads = 3 := by
  have hs : run fate [DbEvent.enter, DbEvent.settleOk] = ⟨some h, some 0, 1, 1, 3, 0⟩ := by
    simp [run, step, connectEnter, initState, hf]
  rw [hs]
  exact ⟨rfl, rfl, rfl, rfl, rfl⟩

/-- C7, witness: two consecutive cache hits on handle 7. -/
theorem connected_cache_hit_witness :
    connectEnter (run fateConst7 [DbEvent.enter, DbEvent.settleOk]) =
      (run fateConst7 [DbEvent.enter, DbEvent.settleOk], .hit 7) ∧
    callerOutcome fateConst7 (connectEnter (run fateConst7 [DbEvent.enter, DbEvent.settleOk])).2 =
      .ok 7 ∧
    (run fateConst7 [DbEvent.enter, DbEvent.settleOk]).calls = 1 ∧
    (run fateConst7 [DbEvent.enter, DbEvent.settleOk]).ops = 1 ∧
    (run fateConst7 [DbEvent.enter, DbEvent.settleOk]).configReads = 3 :=
  connected_cache_hit fateConst7 7 rfl

/-- C8: `disconnectFromDb` is idempotent; in the Connected state it closes
the underlying connection and clears both cache fields; in every other
state it is a no-op leaving the cache unchanged; and the round trip
Connect–Disconnect–Connect performs a second, fresh underlying attempt
yielding the second operation's (independent) handle. -/
theorem disconnect_idempotent_and_fresh :
    (∀ (fate : Nat → Fate) (s : DbState),
      step fate (step fate s DbEvent.disconnectCall) DbEvent.disconnectCall =
        step fate s DbEvent.disconnectCall) ∧
    (∀ (fate : Nat → Fate) (s : DbState) (c : Nat), s.conn = some c →
      step fate s DbEvent.disconnectCall =
        { s with conn := none, promise := none, closes := s.closes + 1 }) ∧
    (∀ (fate : Nat → Fate) (s : DbState), s.conn = none →
      step fate s DbEvent.disconnectCall = s) ∧
    (∀ (fate : Nat → Fate) (h0 h1 : Nat), fate 0 = .success h0 → fate 1 = .success h1 →
      (run fate [DbEvent.enter, DbEvent.settleOk, DbEvent.disconnectCall,
        DbEvent.enter, DbEvent.settleOk]).conn = some h1 ∧
      (run fate [DbEvent.enter, DbEvent.settleOk, DbEvent.disconnectCall,
        DbEvent.enter, DbEvent.settleOk]).calls = 2 ∧
      (run fate [DbEvent.enter, DbEvent.settleOk, DbEvent.disconnectCall,
        DbEvent.enter, DbEvent.settleOk]).ops = 2 ∧
      (run fate [DbEvent.enter, DbEvent.settleOk, DbEvent.disconnectCall,
        DbEvent.enter, DbEvent.settleOk]).closes = 1 ∧
      (h0 ≠ h1 →
        (run fate [DbEvent.enter, DbEvent.settleOk, DbEvent.disconnectCall,
          DbEvent.enter, DbEvent.settleOk]).conn ≠ some h0)) := by
  refine ⟨?_, ?_, ?_, ?_⟩
  · intro fate s
    obtain ⟨conn, promise, ops, calls, reads, closes⟩ := s
    cases conn <;> simp [step]
  · intro fate s c hc
    obtain ⟨conn, promise, ops, calls, reads, closes⟩ := s
    simp at hc
    subst hc
    simp [step]
  · intro fate s hc
    obtain ⟨conn, promise, ops, calls, reads, closes⟩ := s
    simp at hc
    subst hc
    simp [step]
  · intro fate h0 h1 hf0 hf1
    have hs : run fate [DbEvent.enter, DbEvent.settleOk, DbEvent.disconnectCall,
        DbEvent.enter, DbEvent.settleOk] = ⟨some h1, some 1, 2, 2, 6, 1⟩ := by
      simp [run, step, connectEnter, initState, hf0, hf1]
    rw [hs]
    refine ⟨rfl, rfl, rfl, rfl, fun hne h' => ?_⟩
    simp at h'
    exact hne h'.symm

/-- C8, witness: the round-trip part with distinct handles 10 and 11. -/
theorem disconnect_idempotent_and_fresh_witness :
    (run fateSeqHandles [DbEvent.enter, DbEvent.settleOk, DbEvent.disconnectCall,
      DbEvent.enter, DbEvent.settleOk]).conn = some 11 ∧
    (run fateSeqHandles [DbEvent.enter, DbEvent.settleOk, DbEvent.disconnectCall,
      DbEvent.enter, DbEvent.settleOk]).calls = 2 ∧
    (run fateSeqHandles [DbEvent.enter, DbEvent.settleOk, DbEvent.disconnectCall,
      DbEvent.enter, DbEvent.settleOk]).conn ≠ some 10 := by
  have h := disconnect_idempotent_and_fresh.2.2.2 fateSeqHandles 10 11 rfl rfl
  exact ⟨h.1, h.2.1, h.2.2.2.2 (by decide)⟩

/-- C6, counterexample: the claim requires a tier-dependent
connect-timeout default, but line 108 gives `MONGODB_CONNECT_TIMEOUT_MS`
the same default (30000 ms) in both tiers, so the claim as stated is
false. -/
theorem tier_policy_cex : ¬ tierPolicyClaim := by
  rintro ⟨oP, oD, hP, hD, _, _, hne⟩
  rw [show tierDefaultOptions true = .ok (specTierOptions true) from rfl] at hP
  rw [show tierDefaultOptions false = .ok (specTierOptions false) from rfl] at hD
  simp at hP hD
  rw [← hP, ← hD] at hne
  exact hne rfl

/-- C6, amended: the tier policy holds exactly as claimed except that the
connect-timeout default is the tier-independent constant 30000 ms: for
each tier the default options are precisely the spec table's options, and
for ANY environment the pool size and all six production-only reliability
flags depend only on the tier. -/
theorem tier_policy_amended :
    (∀ isProd : Bool, tierDefaultOptions isProd = .ok (specTierOptions isProd)) ∧
    (∀ (jp : String → Except EnvVarError JSValue) (env : String → Option String)
       (isProd : Bool) (dbn : String) (o : MongoDBConnectionOptions),
      mongoConnectOptions jp env isProd dbn = .ok o →
      o.maxPoolSize = (if isProd then 20 else 10) ∧
      o.bufferCommands = false ∧ o.family = 4 ∧
      o.retryWrites = (if isProd then some true else none) ∧
      o.retryReads = (if isProd then some true else none) ∧
      o.w = (if isProd then some "majority" else none) ∧
      o.readPreference = (if isProd then some "secondaryPreferred" else none) ∧
      o.ssl = (if isProd then some true else none) ∧
      o.authSource = (if isProd then some "admin" else none) ∧
      o.tlsAllowInvalidCertificates = (if isProd then some false else none)) := by
  constructor
  · intro isProd
    cases isProd <;> rfl
  · intro jp env isProd dbn o h
    unfold mongoConnectOptions at h
    split at h
    · exact absurd h (by simp)
    · split at h
      · exact absurd h (by simp)
      · split at h
        · exact absurd h (by simp)
        · simp only [Except.ok.injEq] at h
          subst h
          exact ⟨rfl, rfl, rfl, rfl, rfl, rfl, rfl, rfl, rfl, rfl⟩

/-- C6, witness: the production-tier default options are the spec table's
production column (with connect timeout 30000), and the production
options carry pool size 20 and all six reliability flags. -/
theorem tier_policy_amended_witness :
    tierDefaultOptions true = .ok (specTierOptions true) ∧
    (specTierOptions true).maxPoolSize = 20 ∧
    (specTierOptions true).retryWrites = some true ∧
    (specTierOptions true).w = some "majority" :=
  ⟨tier_policy_amended.1 true,
   by
    have h := tier_policy_amended.2 jsonParseNull emptyEnv true "ageoftraders"
      (specTierOptions true) rfl
    exact ⟨h.1, h.2.2.2.1, h.2.2.2.2.2.1⟩⟩

/-- One retry-loop step: the underlying call succeeds, so the promise
resolves with that handle after exactly this one call and no delay. -/
theorem connectWithRetry_ok {E C : Type} (tc : Nat → Except E C) (m a : Nat) (c : C)
    (h : tc a = .ok c) : connectWithRetry tc m a = ⟨.ok c, 1, []⟩ := by
  rw [connectWithRetry, h]

/-- One retry-loop step: the underlying call fails with the attempt budget
exhausted, so the promise rejects with that error. -/
theorem connectWithRetry_err_last {E C : Type} (tc : Nat → Except E C) (m a : Nat) (e : E)
    (h : tc a = .error e) (hm : a + 1 ≥ m) :
    connectWithRetry tc m a = ⟨.error e, 1, []⟩ := by
  rw [connectWithRetry, h]
  simp [hm]

/-- One retry-loop step: the underlying call fails with budget remaining,
so the loop sleeps 2000 ms and re-enters with the incremented counter. -/
theorem connectWithRetry_err_step {E C : Type} (tc : Nat → Except E C) (m a : Nat) (e : E)
    (h : tc a = .error e) (hm : ¬ a + 1 ≥ m) :
    connectWithRetry tc m a =
      ⟨(connectWithRetry tc m (a + 1)).result, (connectWithRetry tc m (a + 1)).calls + 1,
        2000 :: (connectWithRetry tc m (a + 1)).delays⟩ := by
  rw [connectWithRetry, h]
  simp [hm]

/-- C3: with the tier's attempt budget (3 in production, 1 otherwise),
failing all but the last allowed attempt and succeeding on it resolves
with the handle after exactly `maxRetries` underlying calls separated by
fixed 2000 ms delays; failing every allowed attempt rejects with the LAST
underlying error after the same schedule; a rejection reaches every
coalesced waiter, leaves the cache fully Disconnected (no connection, no
pending operation), and the next `Connect()` starts a fresh underlying
attempt (a new in-flight operation and a second client call). -/
theorem retry_policy_and_reset :
    (∀ (isProd : Bool) (tc : Nat → Except String Nat) (c : Nat),
      (∀ k, k + 1 < maxRetries isProd → ∃ e, tc k = .error e) →
      tc (maxRetries isProd - 1) = .ok c →
      connectWithRetry tc (maxRetries isProd) 0 =
        ⟨.ok c, maxRetries isProd, List.replicate (maxRetries isProd - 1) 2000⟩) ∧
    (∀ (isProd : Bool) (tc : Nat → Except String Nat) (es : Nat → String),
      (∀ k, k < maxRetries isProd → tc k = .error (es k)) →
      connectWithRetry tc (maxRetries isProd) 0 =
        ⟨.error (es (maxRetries isProd - 1)), maxRetries isProd,
          List.replicate (maxRetries isProd - 1) 2000⟩) ∧
    (∀ (fate : Nat → Fate) (e : String) (n : Nat), fate 0 = .failure e →
      (∀ r ∈ (enterSeq n initState).2, callerOutcome fate r = .error e) ∧
      run fate [DbEvent.enter, DbEvent.settleErr] = ⟨none, none, 1, 1, 3, 0⟩ ∧
      (connectEnter (run fate [DbEvent.enter, DbEvent.settleErr])).2 = .joined 1 ∧
      (connectEnter (run fate [DbEvent.enter, DbEvent.settleErr])).1.calls = 2 ∧
      (connectEnter (run fate [DbEvent.enter, DbEvent.settleErr])).1.ops = 2) := by
  refine ⟨?_, ?_, ?_⟩
  · intro isProd tc c hfail hok
    cases isProd with
    | false =>
      simp only [maxRetries, Bool.false_eq_true, if_false] at hok ⊢
      rw [connectWithRetry_ok tc 1 0 c hok]
      rfl
    | true =>
      simp only [maxRetries, if_true] at hok ⊢
      obtain ⟨e0, h0⟩ := hfail 0 (by simp [maxRetries])
      obtain ⟨e1, h1⟩ := hfail 1 (by simp [maxRetries])
      rw [connectWithRetry_err_step tc 3 0 e0 h0 (by omega),
        connectWithRetry_err_step tc 3 1 e1 h1 (by omega),
        connectWithRetry_ok tc 3 2 c hok]
      rfl
  · intro isProd tc es hfail
    cases isProd with
    | false =>
      have h0 := hfail 0 (by simp [maxRetries])
      simp only [maxRetries, Bool.false_eq_true, if_false]
      rw [connectWithRetry_err_last tc 1 0 (es 0) h0 (by omega)]
      rfl
    | true =>
      have h0 := hfail 0 (by simp [maxRetries])
      have h1 := hfail 1 (by simp [maxRetries])
      have h2 := hfail 2 (by simp [maxRetries])
      simp only [maxRetries, if_true]
      rw [connectWithRetry_err_step tc 3 0 (es 0) h0 (by omega),
        connectWithRetry_err_step tc 3 1 (es 1) h1 (by omega),
        connectWithRetry_err_last tc 3 2 (es 2) h2 (by omega)]
      rfl
  · intro fate e n hf
    have hrun : run fate [DbEvent.enter, DbEvent.settleErr] = ⟨none, none, 1, 1, 3, 0⟩ := by
      simp [run, step, connectEnter, initState, hf]
    refine ⟨?_, hrun, by rw [hrun]; rfl, by rw [hrun]; rfl, by rw [hrun]; rfl⟩
    intro r hr
    cases n with
    | zero => simp [enterSeq] at hr
    | succ k =>
      rw [enterSeq_initState (k + 1) (by omega)] at hr
      have := List.eq_of_mem_replicate hr
      subst this
      simp [callerOutcome, hf]

/-- C3, witness: the success-on-last-attempt part applied in the
production tier to a client failing twice then succeeding with handle 42:
three calls, two 2000 ms delays, overall success. -/
theorem retry_policy_and_reset_witness :
    connectWithRetry tcRetryW (maxRetries true) 0 =
      ⟨.ok 42, maxRetries true, List.replicate (maxRetries true - 1) 2000⟩ :=
  retry_policy_and_reset.1 true tcRetryW 42
    (fun k hk => ⟨"no primary", by
      have hk2 : k < 2 := by simp [maxRetries] at hk; omega
      simp [tcRetryW, hk2]⟩)
    rfl
